import Mathlib

/-!
Shallow embedding of the Study-Battle battle client (the `Arena` component in
`src/frontend/src/pages/Workspace.jsx`).  React `useState` hooks become the
fields of `ArenaState`; the `handleMessage` switch becomes a Lean function on
messages; the outbound `ws.send` calls become `Frame` values, emitted only when
the underlying WebSocket is in the `open` ready state; `setTimeout` effects are
returned explicitly.  The `ws.onclose` handler is modelled with the value of
`matchEnd` it actually closes over (captured when `connectWebSocket` runs,
because `useCallback` memoises on `[matchId, playerName]` only), stored in the
field `wsCapturedMatchEnd`.  Wire numbers that the protocol defines as second
counts or hit points (`time_limit`, `seconds_left`, `cooldown_seconds`, `hp`)
are modelled as `Nat`; the local `cooldown` counter is an `Int` so that
`Math.max(0, c - 1)` and non-negativity are modelled faithfully.
-/

namespace StudyBattle

/-- A citation `{file_name, page?, url?}` backing a question. -/
structure Citation where
  file_name : String
  page : Option Nat
  url : Option String
deriving DecidableEq, Repr

/-- The `round_start` payload, stored whole as `currentQuestion`
(`setCurrentQuestion(data)`). -/
structure Question where
  question_id : String
  question_text : String
  question_type : String
  options : Option (List String)
  time_limit : Nat
  citation : Option (List Citation)
deriving DecidableEq, Repr

/-- One Round History entry, as built by the `round_start` case of
`handleMessage`; `solution` and `correct_answer` are absent until a
`round_result` amends the entry. -/
structure RoundRecord where
  question_id : String
  question_text : String
  question_type : String
  options : Option (List String)
  citation : List Citation
  solution : Option String
  correct_answer : Option String
deriving DecidableEq, Repr

/-- The `round_result` payload. -/
structure RoundResultData where
  winner_player : Option String
  damage : Option Nat
  time_taken : Option Nat
  timeout : Bool
  skipped : Bool
  solution : String
  correct_answer : String
  citation : Option (List Citation)
  players : Option (List (String × Nat))
deriving DecidableEq, Repr

/-- The `match_end` payload: winner name and optional final hp map. -/
structure MatchEndData where
  winner : String
  final_hp : Option (List (String × Nat))
deriving DecidableEq, Repr

/-- Inbound protocol messages (`{type, data}` envelopes, decoded). -/
inductive Msg where
  | connected (player : String)
  | match_ready (players : List (String × Nat))
  | round_start (q : Question)
  | round_update (seconds_left : Nat)
  | skip_update (skipped_by : Option (List String))
  | round_result (r : RoundResultData)
  | answer_feedback (correct : Bool) (cooldown_seconds : Option Nat)
      (explanation : Option String)
  | match_end (e : MatchEndData)
  | error (message : String)
  | unknown (ty : String)
deriving DecidableEq, Repr

/-- Outbound frames produced by the command encoder. -/
inductive Frame where
  | submit_answer (question_id : String) (answer : String)
  | skip_round
deriving DecidableEq, Repr

/-- WebSocket readyState of the socket held in `wsRef.current`. -/
inductive WsReadyState where
  | connecting
  | open
  | closing
  | closed
deriving DecidableEq, Repr

/-- Scheduled asynchronous effects (`setTimeout` callbacks). -/
inductive Effect where
  | clearErrorAfterMs (ms : Nat)
deriving DecidableEq, Repr

/-- The component state: one field per `useState` hook of `Arena`, plus the
socket model (`wsState`, `none` when `wsRef.current` is null), the `matchEnd`
value captured by the connection's event handlers, and whether the cooldown
interval is currently installed (`cooldownTimerRef`). -/
structure ArenaState where
  localPlayer : String
  connected : Bool
  matchReady : Bool
  players : List (String × Nat)
  currentQuestion : Option Question
  timeLeft : Nat
  answer : String
  selectedOption : Option String
  submitting : Bool
  roundResult : Option RoundResultData
  matchEnd : Option MatchEndData
  error : Option String
  cooldown : Int
  waitingForOpponent : Bool
  roundHistory : List RoundRecord
  skipStatus : List String
  wsError : Option String
  wsState : Option WsReadyState
  wsCapturedMatchEnd : Option MatchEndData
  cooldownActive : Bool
deriving DecidableEq, Repr

/-- Initial hook values of a freshly mounted `Arena`. -/
def initState (player : String) : ArenaState where
  localPlayer := player
  connected := false
  matchReady := false
  players := []
  currentQuestion := none
  timeLeft := 0
  answer := ""
  selectedOption := none
  submitting := false
  roundResult := none
  matchEnd := none
  error := none
  cooldown := 0
  waitingForOpponent := true
  roundHistory := []
  skipStatus := []
  wsError := none
  wsState := none
  wsCapturedMatchEnd := none
  cooldownActive := false

/-- `ws.send`: a frame reaches the wire only when the socket is open. -/
def wsSend (ws : Option WsReadyState) (f : Frame) : List Frame :=
  if ws = some WsReadyState.open then [f] else []

/-- The Round History entry appended by the `round_start` case
(`data.citation || []`). -/
def mkRecord (q : Question) : RoundRecord where
  question_id := q.question_id
  question_text := q.question_text
  question_type := q.question_type
  options := q.options
  citation := q.citation.getD []
  solution := none
  correct_answer := none

/-- The spread-update applied to the last history entry by `round_result`:
`{...last, solution, correct_answer, citation: data.citation || last.citation || []}`. -/
def amendRecord (rec : RoundRecord) (r : RoundResultData) : RoundRecord :=
  { rec with
    solution := some r.solution
    correct_answer := some r.correct_answer
    citation := r.citation.getD rec.citation }

/-- The `setRoundHistory` updater of the `round_result` case:
`if (prev.length === 0) return prev` else overwrite the last index. -/
def amendHistory (hist : List RoundRecord) (r : RoundResultData) :
    List RoundRecord :=
  match hist.getLast? with
  | none => hist
  | some last => hist.dropLast ++ [amendRecord last r]

/-- `data.cooldown_seconds || 2`: JavaScript `||` falls back to 2 when the
field is absent or zero (falsy). -/
def feedbackCooldown (cooldown_seconds : Option Nat) : Int :=
  match cooldown_seconds with
  | none => 2
  | some n => if n = 0 then 2 else (n : Int)

/-- The `handleMessage` switch.  Returns the updated state together with the
`setTimeout` effects it schedules. -/
def handleMessage (m : Msg) (s : ArenaState) : ArenaState × List Effect :=
  match m with
  | .connected _ => (s, [])
  | .match_ready ps =>
      ({ s with matchReady := true, waitingForOpponent := false,
                players := ps }, [])
  | .round_start q =>
      ({ s with currentQuestion := some q
                timeLeft := q.time_limit
                answer := ""
                selectedOption := none
                roundResult := none
                submitting := false
                skipStatus := []
                roundHistory := s.roundHistory ++ [mkRecord q] }, [])
  | .round_update seconds_left =>
      ({ s with timeLeft := seconds_left }, [])
  | .skip_update skipped_by =>
      ({ s with skipStatus := skipped_by.getD [] }, [])
  | .round_result r =>
      ({ s with roundResult := some r
                currentQuestion := none
                players := r.players.getD s.players
                roundHistory := amendHistory s.roundHistory r }, [])
  | .answer_feedback correct cooldown_seconds explanation =>
      if correct then
        ({ s with submitting := false }, [])
      else
        ({ s with cooldown := feedbackCooldown cooldown_seconds
                  error := explanation
                  submitting := false }, [Effect.clearErrorAfterMs 3000])
  | .match_end e =>
      ({ s with matchEnd := some e
                players :=
                  match e.final_hp with
                  | some hp => hp
                  | none => s.players }, [])
  | .error message =>
      ({ s with error := some message }, [])
  | .unknown _ => (s, [])

/-- The `setTimeout(() => setError(null), 3000)` callback: clears the notice
unconditionally, whatever the state has become since. -/
def clearErrorTimeout (s : ArenaState) : ArenaState :=
  { s with error := none }

/-- The answer payload read by `submitAnswer`: the selected option letter for
an mcq question, the free-form text otherwise. -/
def answerPayload (s : ArenaState) (q : Question) : Option String :=
  if q.question_type = "mcq" then s.selectedOption else some s.answer

/-- JavaScript falsiness of the payload (`!answerPayload`): null or `""`. -/
def payloadEmpty : Option String → Bool
  | none => true
  | some str => str = ""

/-- `submitAnswer`.  Returns `none` when the JavaScript evaluation faults
(reading `currentQuestion.question_type` with `currentQuestion === null`);
otherwise the updated state and the frames that reach the wire. -/
def submitAnswer (s : ArenaState) : Option (ArenaState × List Frame) :=
  if s.wsState = none ∨ s.submitting = true ∨ s.cooldown > 0 then
    some (s, [])
  else
    match s.currentQuestion with
    | none => none
    | some q =>
        let payload := answerPayload s q
        if payloadEmpty payload then
          some ({ s with error := some "Please provide an answer" }, [])
        else
          some ({ s with submitting := true, error := none },
                wsSend s.wsState (Frame.submit_answer q.question_id
                  (payload.getD "")))

/-- Frames sent by a possibly-faulting call (a fault sends nothing). -/
def sentFrames : Option (ArenaState × List Frame) → List Frame
  | none => []
  | some (_, fs) => fs

/-- Clicking the Skip Round button: does nothing when the button is disabled
(`disabled={submitting || skipStatus[playerName]}`); otherwise runs
`wsRef.current && wsRef.current.send({type:'skip_round'})`. -/
def skipRoundClick (s : ArenaState) : List Frame :=
  if s.submitting = true ∨ s.localPlayer ∈ s.skipStatus then []
  else
    match s.wsState with
    | none => []
    | some _ => wsSend s.wsState Frame.skip_round

/-- The cooldown `useEffect`: after a commit the interval is installed exactly
when `cooldown > 0` (each run clears the previous interval). -/
def syncCooldown (s : ArenaState) : ArenaState :=
  { s with cooldownActive := decide (s.cooldown > 0) }

/-- Events driving the component: an inbound message, a tick of the cooldown
interval, `connectWebSocket()` (which installs handlers closing over the
current `matchEnd`), the socket's `onopen`, and its `onclose`. -/
inductive Event where
  | emsg (m : Msg)
  | tick
  | connect
  | wsOpen
  | wsClose
deriving DecidableEq, Repr

/-- One event step, each followed by the cooldown effect re-sync.  `tick`
performs `setCooldown(c => Math.max(0, c - 1))` when the interval is
installed.  `wsClose` is the `ws.onclose` handler: it tests the `matchEnd`
value the closure captured, not the current one. -/
def stepEvent (e : Event) (s : ArenaState) : ArenaState :=
  match e with
  | .emsg m => syncCooldown (handleMessage m s).1
  | .tick =>
      syncCooldown
        (if s.cooldownActive then { s with cooldown := max 0 (s.cooldown - 1) }
         else s)
  | .connect =>
      syncCooldown
        { s with wsState := some WsReadyState.connecting
                 wsCapturedMatchEnd := s.matchEnd }
  | .wsOpen =>
      syncCooldown
        { s with connected := true, error := none, wsError := none,
                 wsState := some WsReadyState.open }
  | .wsClose =>
      syncCooldown
        { s with connected := false
                 wsState := some WsReadyState.closed
                 wsError :=
                   if s.wsCapturedMatchEnd = none then some "Connection closed"
                   else s.wsError }

/-- Run a sequence of events from a state. -/
def runEvents (es : List Event) (s : ArenaState) : ArenaState :=
  es.foldl (fun t e => stepEvent e t) s

/-- Run a sequence of inbound messages from a state. -/
def runMsgs (ms : List Msg) (s : ArenaState) : ArenaState :=
  ms.foldl (fun t m => stepEvent (Event.emsg m) t) s

/-- Number of `round_start` messages in a list. -/
def countRoundStart (ms : List Msg) : Nat :=
  ms.countP (fun m => match m with | .round_start _ => true | _ => false)

end StudyBattle

namespace StudyBattle

/-! ### Example inputs used by witnesses and counterexamples -/

/-- A concrete short-answer question. -/
def exQ : Question where
  question_id := "q1"
  question_text := "2+2?"
  question_type := "short"
  options := none
  time_limit := 30
  citation := none

/-- A concrete mcq question. -/
def exQmcq : Question where
  question_id := "q2"
  question_text := "pick"
  question_type := "mcq"
  options := some ["A) x", "B) y"]
  time_limit := 30
  citation := none

/-- A concrete round result payload. -/
def exR : RoundResultData where
  winner_player := some "P"
  damage := some 20
  time_taken := some 7
  timeout := false
  skipped := false
  solution := "because"
  correct_answer := "4"
  citation := none
  players := none

/-- An open in-round state with a non-empty draft answer. -/
def exOpen : ArenaState :=
  { initState "P" with
      connected := true
      wsState := some WsReadyState.open
      currentQuestion := some exQ
      answer := "4" }

/-- Like `exOpen` but with an empty draft answer. -/
def exOpenEmpty : ArenaState :=
  { exOpen with answer := "" }

/-- Like `exOpen` but with a submission already in flight. -/
def exOpenSubmitting : ArenaState :=
  { exOpen with submitting := true }

/-- An open state with no active question. -/
def exOpenNoQ : ArenaState :=
  { initState "P" with connected := true, wsState := some WsReadyState.open }

/-- A state whose cooldown interval is ticking at 3 seconds. -/
def exCooling : ArenaState :=
  { initState "P" with cooldown := 3, cooldownActive := true }

/-- Connect, open, receive `match_end`, then the socket closes: a clean
end-of-match close. -/
def matchEndTrace : List Event :=
  [Event.connect, Event.wsOpen,
   Event.emsg (Msg.match_end { winner := "P", final_hp := none }),
   Event.wsClose]

/-- Connect, open, then the socket closes before any `match_end`. -/
def earlyCloseTrace : List Event :=
  [Event.connect, Event.wsOpen, Event.wsClose]

/-! ### Helper lemmas -/

theorem amendHistory_nil (r : RoundResultData) : amendHistory [] r = [] := rfl

theorem amendHistory_concat (rest : List RoundRecord) (lastRec : RoundRecord)
    (r : RoundResultData) :
    amendHistory (rest ++ [lastRec]) r = rest ++ [amendRecord lastRec r] := by
  simp [amendHistory]

theorem amendHistory_length (hist : List RoundRecord) (r : RoundResultData) :
    (amendHistory hist r).length = hist.length := by
  induction hist using List.reverseRecOn with
  | nil => rfl
  | append_singleton rest lastRec _ => rw [amendHistory_concat]; simp

theorem syncCooldown_roundHistory (s : ArenaState) :
    (syncCooldown s).roundHistory = s.roundHistory := rfl

theorem stepMsg_history_length (m : Msg) (s : ArenaState) :
    (stepEvent (Event.emsg m) s).roundHistory.length =
      s.roundHistory.length + countRoundStart [m] := by
  cases m <;>
    simp [stepEvent, handleMessage, syncCooldown, countRoundStart,
      amendHistory_length]
  case answer_feedback correct cs ex => cases correct <;> simp

theorem runMsgs_history_length (ms : List Msg) (s : ArenaState) :
    (runMsgs ms s).roundHistory.length =
      s.roundHistory.length + countRoundStart ms := by
  induction ms generalizing s with
  | nil => simp [runMsgs, countRoundStart]
  | cons m rest ih =>
      have h1 : runMsgs (m :: rest) s = runMsgs rest (stepEvent (Event.emsg m) s) := by
        simp [runMsgs]
      have h2 : countRoundStart (m :: rest) = countRoundStart [m] + countRoundStart rest := by
        simp [countRoundStart, List.countP_cons]
        omega
      rw [h1, ih, stepMsg_history_length, h2]
      omega

end StudyBattle

namespace StudyBattle

/-- C5: processing a `round_start` message makes the payload the active
question, sets the countdown to its `time_limit`, and resets every per-round
transient: the answer draft becomes empty, the option selection is cleared,
the submitting flag becomes false, the previous round result is cleared, and
the skip-vote set becomes empty. -/
theorem round_start_resets (s : ArenaState) (q : Question) :
    ((handleMessage (Msg.round_start q) s).1).currentQuestion = some q ∧
    ((handleMessage (Msg.round_start q) s).1).timeLeft = q.time_limit ∧
    ((handleMessage (Msg.round_start q) s).1).answer = "" ∧
    ((handleMessage (Msg.round_start q) s).1).selectedOption = none ∧
    ((handleMessage (Msg.round_start q) s).1).submitting = false ∧
    ((handleMessage (Msg.round_start q) s).1).roundResult = none ∧
    ((handleMessage (Msg.round_start q) s).1).skipStatus = [] :=
  ⟨rfl, rfl, rfl, rfl, rfl, rfl, rfl⟩

/-- C9: a `skip_update` message replaces the skip-vote set with exactly the
set of names in `skipped_by` (full replacement, never a merge); in particular
`skipped_by = []` yields an empty skip-vote set. -/
theorem skip_update_replaces (s : ArenaState)
    (skipped_by : Option (List String)) :
    (∀ name,
      name ∈ ((handleMessage (Msg.skip_update skipped_by) s).1).skipStatus ↔
        name ∈ skipped_by.getD []) ∧
    ((handleMessage (Msg.skip_update (some [])) s).1).skipStatus = [] :=
  ⟨fun _ => Iff.rfl, rfl⟩

/-- C2: a `round_result` message rewrites the Round History through
`amendHistory`, which leaves an empty history completely unchanged (no entry
fabricated, no out-of-range write) and otherwise amends only the most
recently appended entry, setting its solution, correct_answer and citations
while keeping every earlier entry intact. -/
theorem round_result_amends_only_last (s : ArenaState) (r : RoundResultData) :
    ((handleMessage (Msg.round_result r) s).1).roundHistory =
      amendHistory s.roundHistory r ∧
    amendHistory [] r = [] ∧
    (∀ rest lastRec, amendHistory (rest ++ [lastRec]) r =
      rest ++ [amendRecord lastRec r]) ∧
    (∀ lastRec : RoundRecord,
      (amendRecord lastRec r).solution = some r.solution ∧
      (amendRecord lastRec r).correct_answer = some r.correct_answer ∧
      (amendRecord lastRec r).citation = r.citation.getD lastRec.citation ∧
      (amendRecord lastRec r).question_text = lastRec.question_text ∧
      (amendRecord lastRec r).question_id = lastRec.question_id) :=
  ⟨rfl, rfl, fun rest lastRec => amendHistory_concat rest lastRec r,
   fun _ => ⟨rfl, rfl, rfl, rfl, rfl⟩⟩

/-- C4: the Round History is strictly append-only: from the initial state its
length always equals the number of `round_start` messages received, and a
single message either appends exactly one record built from a `round_start`
payload, amends via `amendHistory` (which touches only the most recently
appended entry, per `round_result_amends_only_last`), or leaves the history
untouched — no message removes or reorders entries. -/
theorem round_history_append_only :
    (∀ (ms : List Msg) (p : String),
      (runMsgs ms (initState p)).roundHistory.length = countRoundStart ms) ∧
    (∀ (m : Msg) (s : ArenaState),
      (stepEvent (Event.emsg m) s).roundHistory =
        match m with
        | .round_start q => s.roundHistory ++ [mkRecord q]
        | .round_result r => amendHistory s.roundHistory r
        | _ => s.roundHistory) := by
  constructor
  · intro ms p
    rw [runMsgs_history_length]
    simp [initState]
  · intro m s
    cases m <;> simp [stepEvent, handleMessage, syncCooldown]
    case answer_feedback correct cs ex => cases correct <;> simp

end StudyBattle

namespace StudyBattle

/-- C6 counterexample: in a state with an open socket where the local player
has not voted to skip but a submission is in flight, clicking Skip Round
sends nothing — refuting "no condition other than the local player's own
prior skip vote prevents the vote from being sent". -/
theorem skip_click_blocked_by_submitting :
    exOpenSubmitting.localPlayer ∉ exOpenSubmitting.skipStatus ∧
    exOpenSubmitting.wsState = some WsReadyState.open ∧
    skipRoundClick exOpenSubmitting = [] := by
  refine ⟨?_, rfl, rfl⟩
  decide

/-- C6 (amended): clicking Skip Round sends exactly one `skip_round` frame
when the submitting flag is false, the local player has not already voted to
skip, and the socket is open; it is a no-op whenever the local player has
already voted, or the submitting flag is true, or no open connection exists. -/
theorem skip_click_characterisation (s : ArenaState) :
    skipRoundClick s =
      if s.submitting = false ∧ s.localPlayer ∉ s.skipStatus ∧
          s.wsState = some WsReadyState.open
      then [Frame.skip_round] else [] := by
  by_cases hsub : s.submitting = true
  · simp [skipRoundClick, hsub]
  · by_cases hmem : s.localPlayer ∈ s.skipStatus
    · simp [skipRoundClick, hsub, hmem]
    · rcases hws : s.wsState with _ | ws
      · simp [skipRoundClick, hsub, hmem, hws]
      · by_cases hopen : ws = WsReadyState.open
        · simp [skipRoundClick, wsSend, hsub, hmem, hws, hopen]
        · simp [skipRoundClick, wsSend, hsub, hmem, hws, hopen]

end StudyBattle

namespace StudyBattle

theorem feedbackCooldown_pos (cs : Option Nat) : 0 < feedbackCooldown cs := by
  rcases cs with _ | n
  · decide
  · by_cases h : n = 0
    · simp [feedbackCooldown, h]
    · simp [feedbackCooldown, h]
      omega

theorem handleMessage_cooldown_nonneg (m : Msg) (s : ArenaState)
    (h : 0 ≤ s.cooldown) : 0 ≤ ((handleMessage m s).1).cooldown := by
  cases m <;> simp [handleMessage] <;> try exact h
  case answer_feedback correct cs ex =>
    cases correct
    · simpa using le_of_lt (feedbackCooldown_pos cs)
    · simpa using h

theorem stepEvent_cooldown_nonneg (e : Event) (s : ArenaState)
    (h : 0 ≤ s.cooldown) : 0 ≤ (stepEvent e s).cooldown := by
  cases e with
  | emsg m =>
      simpa [stepEvent, syncCooldown] using handleMessage_cooldown_nonneg m s h
  | tick =>
      by_cases ha : s.cooldownActive
      · simp [stepEvent, syncCooldown, ha]
      · simpa [stepEvent, syncCooldown, ha] using h
  | connect => simpa [stepEvent, syncCooldown] using h
  | wsOpen => simpa [stepEvent, syncCooldown] using h
  | wsClose => simpa [stepEvent, syncCooldown] using h

theorem runEvents_cooldown_nonneg (es : List Event) (s : ArenaState)
    (h : 0 ≤ s.cooldown) : 0 ≤ (runEvents es s).cooldown := by
  induction es generalizing s with
  | nil => simpa [runEvents] using h
  | cons e rest ih =>
      have h1 : runEvents (e :: rest) s = runEvents rest (stepEvent e s) := by
        simp [runEvents]
      rw [h1]
      exact ih _ (stepEvent_cooldown_nonneg e s h)

theorem syncCooldown_tracks (t : ArenaState) :
    (syncCooldown t).cooldownActive = decide (0 < (syncCooldown t).cooldown) := rfl

/-- C8: the cooldown counter never becomes negative (an invariant of every
event sequence from the initial state); while the interval is installed and
the counter is positive, each one-second tick decreases it by exactly 1; and
after every event the interval is installed exactly when the counter is
positive — so it stops the instant the counter reaches zero and starts
exactly when the counter goes from zero to non-zero. -/
theorem cooldown_timer_props :
    (∀ (es : List Event) (p : String),
      0 ≤ (runEvents es (initState p)).cooldown) ∧
    (∀ s : ArenaState, s.cooldownActive = true → 0 < s.cooldown →
      (stepEvent Event.tick s).cooldown = s.cooldown - 1) ∧
    (∀ (e : Event) (s : ArenaState),
      (stepEvent e s).cooldownActive = decide (0 < (stepEvent e s).cooldown)) ∧
    (∀ (e : Event) (s : ArenaState), (stepEvent e s).cooldown = 0 →
      (stepEvent e s).cooldownActive = false) ∧
    (∀ (e : Event) (s : ArenaState), s.cooldown = 0 →
      0 < (stepEvent e s).cooldown → (stepEvent e s).cooldownActive = true) := by
  have tracks : ∀ (e : Event) (s : ArenaState),
      (stepEvent e s).cooldownActive = decide (0 < (stepEvent e s).cooldown) := by
    intro e s
    cases e <;> exact syncCooldown_tracks _
  refine ⟨?_, ?_, tracks, ?_, ?_⟩
  · intro es p
    exact runEvents_cooldown_nonneg es (initState p) (by simp [initState])
  · intro s ha hc
    simp [stepEvent, syncCooldown, ha]
    omega
  · intro e s h0
    rw [tracks, h0]
    decide
  · intro e s _ hpos
    rw [tracks]
    simpa using hpos

/-- Witness for `cooldown_timer_props` at concrete inputs: a tick from
cooldown 3 gives 2; an `answer_feedback{correct:false, cooldown_seconds:3}`
from the initial state starts the interval; a tick from cooldown 1 reaches 0
and stops the interval. -/
theorem cooldown_timer_props_witness :
    0 ≤ (runEvents [Event.tick] (initState "P")).cooldown ∧
    (stepEvent Event.tick exCooling).cooldown = exCooling.cooldown - 1 ∧
    (stepEvent (Event.emsg (Msg.answer_feedback false (some 3) none))
      (initState "P")).cooldownActive = true ∧
    (stepEvent Event.tick { exCooling with cooldown := 1 }).cooldownActive =
      false := by
  refine ⟨cooldown_timer_props.1 [Event.tick] "P",
          cooldown_timer_props.2.1 exCooling rfl (by decide),
          cooldown_timer_props.2.2.2.2 _ (initState "P") rfl (by decide),
          cooldown_timer_props.2.2.2.1 Event.tick _ (by decide)⟩

end StudyBattle

namespace StudyBattle

/-- C3 counterexample: an `answer_feedback{correct:false, cooldown_seconds:0}`
message does not set the cooldown to the server-specified duration 0 — the
JavaScript `data.cooldown_seconds || 2` treats 0 as falsy and yields 2. -/
theorem answer_feedback_zero_cooldown_cex :
    ((handleMessage (Msg.answer_feedback false (some 0) none)
      (initState "P")).1).cooldown = 2 ∧ (2 : Int) ≠ 0 :=
  ⟨rfl, by decide⟩

/-- C3 (amended): on `answer_feedback` with correct=false the cooldown is set
to the server-specified duration when that duration is positive, defaulting
to 2 seconds when `cooldown_seconds` is omitted or zero; the message's
explanation is exposed as the transient notice together with a scheduled
3-second clear whose firing (`clearErrorTimeout`) wipes the notice from any
state whatsoever; and in every case (correct true or false) the submitting
flag is cleared. -/
theorem answer_feedback_props (s : ArenaState) (correct : Bool)
    (cs : Option Nat) (ex : Option String) :
    (correct = false →
      (∀ n, cs = some n → 0 < n →
        ((handleMessage (Msg.answer_feedback correct cs ex) s).1).cooldown =
          (n : Int)) ∧
      ((cs = none ∨ cs = some 0) →
        ((handleMessage (Msg.answer_feedback correct cs ex) s).1).cooldown =
          2) ∧
      ((handleMessage (Msg.answer_feedback correct cs ex) s).1).error = ex ∧
      (handleMessage (Msg.answer_feedback correct cs ex) s).2 =
        [Effect.clearErrorAfterMs 3000]) ∧
    ((handleMessage (Msg.answer_feedback correct cs ex) s).1).submitting =
      false ∧
    (∀ t : ArenaState, (clearErrorTimeout t).error = none) := by
  cases correct with
  | false =>
      refine ⟨fun _ => ⟨?_, ?_, rfl, rfl⟩, rfl, fun _ => rfl⟩
      · intro n hn hpos
        subst hn
        simp [handleMessage, feedbackCooldown]
        omega
      · rintro (hcs | hcs) <;> subst hcs <;> rfl
  | true =>
      exact ⟨fun h => absurd h (by decide), rfl, fun _ => rfl⟩

/-- Witness for `answer_feedback_props` at concrete inputs: a positive
server duration 3 is kept, an omitted duration defaults to 2, the submitting
flag is cleared, and the timeout clears the notice from a state that changed
meanwhile. -/
theorem answer_feedback_props_witness :
    ((handleMessage (Msg.answer_feedback false (some 3) (some "no"))
      (initState "P")).1).cooldown = (3 : Int) ∧
    ((handleMessage (Msg.answer_feedback false none none)
      (initState "P")).1).cooldown = 2 ∧
    ((handleMessage (Msg.answer_feedback true none none)
      (initState "P")).1).submitting = false ∧
    (clearErrorTimeout { initState "P" with error := some "stale" }).error =
      none :=
  ⟨((answer_feedback_props (initState "P") false (some 3) (some "no")).1
      rfl).1 3 rfl (by decide),
   ((answer_feedback_props (initState "P") false none none).1
      rfl).2.1 (Or.inl rfl),
   (answer_feedback_props (initState "P") true none none).2.1,
   (answer_feedback_props (initState "P") true none none).2.2
     { initState "P" with error := some "stale" }⟩

end StudyBattle

namespace StudyBattle

/-- C1: `submitAnswer` puts no frame on the wire unless the socket is open,
the submitting flag is false and the cooldown is 0 (for the non-negative
cooldowns that are invariant, see `runEvents_cooldown_nonneg`); and in any
such state with an active question, an empty payload (no selected option
letter for an mcq question, empty text otherwise) surfaces the local
validation notice and sends nothing, while a non-empty payload emits exactly
one `submit_answer` frame carrying the active question's id and the
payload. -/
theorem submitAnswer_guard (s : ArenaState) :
    (0 ≤ s.cooldown →
      ¬(s.wsState = some WsReadyState.open ∧ s.submitting = false ∧
        s.cooldown = 0) →
      sentFrames (submitAnswer s) = []) ∧
    (∀ q : Question, s.wsState = some WsReadyState.open →
      s.submitting = false → s.cooldown = 0 → s.currentQuestion = some q →
      (payloadEmpty (answerPayload s q) = true →
        submitAnswer s =
          some ({ s with error := some "Please provide an answer" }, [])) ∧
      (payloadEmpty (answerPayload s q) = false →
        submitAnswer s =
          some ({ s with submitting := true, error := none },
            [Frame.submit_answer q.question_id
              ((answerPayload s q).getD "")]))) := by
  constructor
  · intro hnn hng
    by_cases hguard : s.wsState = none ∨ s.submitting = true ∨ s.cooldown > 0
    · simp [submitAnswer, hguard, sentFrames]
    · push_neg at hguard
      obtain ⟨hws, hsub, hcd⟩ := hguard
      have hcd0 : s.cooldown = 0 := le_antisymm hcd hnn
      have hsub0 : s.submitting = false := by simpa using hsub
      have hnopen : s.wsState ≠ some WsReadyState.open := fun h =>
        hng ⟨h, hsub0, hcd0⟩
      cases hq : s.currentQuestion with
      | none =>
          simp [submitAnswer, hws, hsub0, hcd0, hq, sentFrames]
      | some q =>
          by_cases hpe : payloadEmpty (answerPayload s q) <;>
            simp [submitAnswer, hws, hsub0, hcd0, hq, hpe, sentFrames,
              wsSend, hnopen]
  · intro q hws hsub hcd hq
    have hguard : ¬(s.wsState = none ∨ s.submitting = true ∨
        s.cooldown > 0) := by
      simp [hws, hsub, hcd]
    constructor
    · intro hpe
      simp [submitAnswer, hguard, hq, hpe, hsub, hcd, hws]
    · intro hpe
      simp [submitAnswer, hguard, hq, hpe, wsSend, hws, hsub, hcd]

/-- Witness for `submitAnswer_guard`: with a submission in flight nothing is
sent; in an open idle state with an empty draft the validation notice is
surfaced and nothing is sent; with draft "4" exactly one frame for question
"q1" goes out. -/
theorem submitAnswer_guard_witness :
    sentFrames (submitAnswer exOpenSubmitting) = [] ∧
    submitAnswer exOpenEmpty =
      some ({ exOpenEmpty with error := some "Please provide an answer" },
        []) ∧
    submitAnswer exOpen =
      some ({ exOpen with submitting := true, error := none },
        [Frame.submit_answer "q1" "4"]) := by
  refine ⟨(submitAnswer_guard exOpenSubmitting).1 (by decide) (by decide),
          ((submitAnswer_guard exOpenEmpty).2 exQ rfl rfl rfl rfl).1
            (by decide), ?_⟩
  exact ((submitAnswer_guard exOpen).2 exQ rfl rfl rfl rfl).2 (by decide)

/-- C10: under the guard conditions (live socket reference, submitting flag
false, cooldown 0) `submitAnswer` reads the active question unconditionally:
with no active question its evaluation faults (`none`, the null dereference)
rather than being a no-op, and with an active question it is defined. -/
theorem submitAnswer_requires_question (s : ArenaState)
    (hws : s.wsState ≠ none) (hsub : s.submitting = false)
    (hcd : s.cooldown = 0) :
    (s.currentQuestion = none → submitAnswer s = none) ∧
    (∀ q, s.currentQuestion = some q → (submitAnswer s).isSome = true) := by
  have hguard : ¬(s.wsState = none ∨ s.submitting = true ∨
      s.cooldown > 0) := by
    simp [hws, hsub, hcd]
  constructor
  · intro hq
    simp [submitAnswer, hguard, hq]
  · intro q hq
    by_cases hpe : payloadEmpty (answerPayload s q) <;>
      simp [submitAnswer, hguard, hq, hpe]

/-- Witness for `submitAnswer_requires_question`: an open state with no
active question faults; the same state with question "q1" evaluates. -/
theorem submitAnswer_requires_question_witness :
    submitAnswer exOpenNoQ = none ∧ (submitAnswer exOpen).isSome = true :=
  ⟨(submitAnswer_requires_question exOpenNoQ (by decide) rfl rfl).1 rfl,
   (submitAnswer_requires_question exOpen (by decide) rfl rfl).2 exQ rfl⟩

/-- C7 (code bug): closing before `match_end` surfaces "Connection closed",
but so does a clean end-of-match close — the `ws.onclose` handler tests the
`matchEnd` value captured when `connectWebSocket` ran (always `none`), not
the current one, so after the trace connect/open/`match_end`/close the
state still reports the connection-lost error. -/
theorem onclose_stale_matchEnd_bug :
    (runEvents earlyCloseTrace (initState "P")).wsError =
      some "Connection closed" ∧
    (runEvents matchEndTrace (initState "P")).matchEnd =
      some { winner := "P", final_hp := none } ∧
    (runEvents matchEndTrace (initState "P")).wsError =
      some "Connection closed" :=
  ⟨rfl, rfl, rfl⟩

end StudyBattle
